import Mathlib

/-!
# Verification of the `calc` package (Go constant-expression calculator)

The package evaluates textual arithmetic/logical expressions over Go's exact,
arbitrary-precision untyped constant domain and narrows the result to concrete
machine types.  The repository's own code (`main.go`) is a thin layer over the
Go toolchain's constant evaluator (`go/types`, `go/constant`); that evaluator
is not part of the repository's sources, so it is modelled here from the
specification's description of the constant value domain, the operator
semantics, the scope/namespace model, and the conversion/narrowing rules.
The layer in `main.go` (the `Scope` methods `Int`, `Uint`, `Float64`,
`Float32`, `Complex128`, `Complex64`, `Bool`, `String`, `Assign`,
`AssignValue`, `Import`, and the package-level narrowing functions) is
translated directly from the source.

Expressions are embedded at the abstract-syntax level: the string
`"1<<100 + 2 - 1<<100"` is represented by the corresponding expression tree,
since lexing and parsing are also delegated to the toolchain and the grammar
is unambiguous for every expression the claims mention.
-/

set_option maxRecDepth 40000

deriving instance DecidableEq for Except

namespace CalcSpec

/-- Modelled from the spec: an exact arbitrary-precision rational —
numerator and denominator as arbitrary-precision integers, always kept in
lowest terms with a positive denominator (§3, §9).  Every value produced by
the smart constructors below is normalized, so structural equality is exact
value equality. -/
structure Q where
  num : ℤ
  den : ℕ
deriving DecidableEq, Repr

/-- The exact rational denoting an integer. -/
def Q.ofInt (n : ℤ) : Q := ⟨n, 1⟩

/-- Normalize `n / d` to lowest terms with a positive denominator.  `d = 0`
never occurs (division by an exact zero is rejected before dividing); it is
mapped to `0` for totality. -/
def Q.norm (n d : ℤ) : Q :=
  if d = 0 then ⟨0, 1⟩
  else
    let n' := if d < 0 then -n else n
    let g : ℤ := (n'.natAbs.gcd d.natAbs : ℤ)
    ⟨n' / g, d.natAbs / n'.natAbs.gcd d.natAbs⟩

/-- Exact rational addition. -/
def Q.add (a b : Q) : Q :=
  Q.norm (a.num * b.den + b.num * a.den) ((a.den : ℤ) * b.den)

/-- Exact rational subtraction. -/
def Q.sub (a b : Q) : Q :=
  Q.norm (a.num * b.den - b.num * a.den) ((a.den : ℤ) * b.den)

/-- Exact rational multiplication. -/
def Q.mul (a b : Q) : Q :=
  Q.norm (a.num * b.num) ((a.den : ℤ) * b.den)

/-- Exact rational division (the divisor is checked for zero beforehand). -/
def Q.div (a b : Q) : Q :=
  Q.norm (a.num * b.den) ((a.den : ℤ) * b.num)

/-- Exact rational negation (normalization is preserved). -/
def Q.neg (a : Q) : Q := ⟨-a.num, a.den⟩

/-- Absolute value (normalization is preserved). -/
def Q.abs (a : Q) : Q := ⟨(a.num.natAbs : ℤ), a.den⟩

/-- Exact test for zero. -/
def Q.isZero (a : Q) : Bool := a.num == 0

/-- Exact test for integrality: in lowest terms the denominator is `1`. -/
def Q.isInt (a : Q) : Bool := a.den == 1

/-- Exact order comparison by cross-multiplication (denominators are
positive). -/
def Q.blt (a b : Q) : Bool := decide (a.num * b.den < b.num * a.den)

/-- Exact `≤` comparison by cross-multiplication. -/
def Q.ble (a b : Q) : Bool := decide (a.num * b.den ≤ b.num * a.den)

/-- The exact rational `2 ^ g` for `g : ℤ`. -/
def Q.pow2 : ℤ → Q
  | .ofNat n => ⟨((2 ^ n : ℕ) : ℤ), 1⟩
  | .negSucc n => ⟨1, 2 ^ (n + 1)⟩

/-- Modelled from the spec: the tagged exact Constant Value domain of §3
(`go/constant` values).  `Bool`, `String`, arbitrary-precision `Int`, exact
rational `Float`, and `Complex` with exact rational components.  The spec's
`Unknown` marker never escapes evaluation as a successful result, so failure
is represented by the error side of `Except` instead. -/
inductive Value where
  | vBool (b : Bool)
  | vString (s : String)
  | vInt (n : ℤ)
  | vFloat (q : Q)
  | vComplex (re im : Q)
deriving DecidableEq, Repr

/-- The five kinds of constant values (§3). -/
inductive Kind where
  | bool | string | int | float | complex
deriving DecidableEq, Repr

/-- Kind of a constant value (`constant.Value.Kind`). -/
def Value.kind : Value → Kind
  | .vBool _ => .bool
  | .vString _ => .string
  | .vInt _ => .int
  | .vFloat _ => .float
  | .vComplex _ _ => .complex

/-- Modelled from the spec: the error kinds of §7.  In the Go code errors are
plain `error` values produced by the toolchain or by `fmt.Errorf`; the spec
classifies them into these kinds. -/
inductive Err where
  | syntaxError
  | unknownIdentifier (name : String)
  | namespaceError (name : String)
  | typeMismatch
  | divisionByZero
  | invalidShift
  | notRepresentable (target : String)
deriving DecidableEq, Repr

/-- Binary operators of the grammar (§4.1/§4.3). -/
inductive BinOp where
  | add | sub | mul | quo | rem
  | and | or | xor | andNot | shl | shr
  | eq | neq | lt | leq | gt | geq
  | land | lor
deriving DecidableEq, Repr

/-- Unary operators of the grammar (§4.1/§4.3). -/
inductive UnOp where
  | neg | pos | not | compl
deriving DecidableEq, Repr

/-- Modelled from the spec: expression trees produced by the parser (§4.2).
Literal nodes carry the Constant Value the literal denotes; identifiers are
either plain or namespace-qualified (the parser keeps a dotted identifier as
one node with an optional qualifier). -/
inductive Expr where
  | lit (v : Value)
  | ident (name : String)
  | qident (ns name : String)
  | un (op : UnOp) (e : Expr)
  | bin (op : BinOp) (l r : Expr)
deriving DecidableEq, Repr

/-- An object bound in a scope: either a constant value or an imported
package (sub-scope).  In `go/types` both `Const` objects and `PkgName`
objects live in the one name space of the package's scope, which is why a
single list of named objects is used. -/
inductive Obj where
  | const (v : Value)
  | pkg (objects : List (String × Obj))

/-- `Scope` from `main.go`: wraps the (possibly nil, i.e. empty) `go/types`
package whose scope maps names to objects.  The zero value is valid and
empty. -/
structure Scope where
  objects : List (String × Obj)

/-- The zero-valued (empty) `Scope{}`. -/
def Scope.empty : Scope := ⟨[]⟩

/-- The ranges of the Unicode uppercase-letter (Lu) category, as scalar
value intervals.  `unicode.IsUpper` holds of a rune exactly when it falls in
the Lu category; this is its range table. -/
def upperRanges : List (ℕ × ℕ) := [
  (0x41, 0x5A), (0xC0, 0xD6), (0xD8, 0xDE), (0x100, 0x100), (0x102, 0x102), (0x104, 0x104),
  (0x106, 0x106), (0x108, 0x108), (0x10A, 0x10A), (0x10C, 0x10C), (0x10E, 0x10E), (0x110, 0x110),
  (0x112, 0x112), (0x114, 0x114), (0x116, 0x116), (0x118, 0x118), (0x11A, 0x11A), (0x11C, 0x11C),
  (0x11E, 0x11E), (0x120, 0x120), (0x122, 0x122), (0x124, 0x124), (0x126, 0x126), (0x128, 0x128),
  (0x12A, 0x12A), (0x12C, 0x12C), (0x12E, 0x12E), (0x130, 0x130), (0x132, 0x132), (0x134, 0x134),
  (0x136, 0x136), (0x139, 0x139), (0x13B, 0x13B), (0x13D, 0x13D), (0x13F, 0x13F), (0x141, 0x141),
  (0x143, 0x143), (0x145, 0x145), (0x147, 0x147), (0x14A, 0x14A), (0x14C, 0x14C), (0x14E, 0x14E),
  (0x150, 0x150), (0x152, 0x152), (0x154, 0x154), (0x156, 0x156), (0x158, 0x158), (0x15A, 0x15A),
  (0x15C, 0x15C), (0x15E, 0x15E), (0x160, 0x160), (0x162, 0x162), (0x164, 0x164), (0x166, 0x166),
  (0x168, 0x168), (0x16A, 0x16A), (0x16C, 0x16C), (0x16E, 0x16E), (0x170, 0x170), (0x172, 0x172),
  (0x174, 0x174), (0x176, 0x176), (0x178, 0x179), (0x17B, 0x17B), (0x17D, 0x17D), (0x181, 0x182),
  (0x184, 0x184), (0x186, 0x187), (0x189, 0x18B), (0x18E, 0x191), (0x193, 0x194), (0x196, 0x198),
  (0x19C, 0x19D), (0x19F, 0x1A0), (0x1A2, 0x1A2), (0x1A4, 0x1A4), (0x1A6, 0x1A7), (0x1A9, 0x1A9),
  (0x1AC, 0x1AC), (0x1AE, 0x1AF), (0x1B1, 0x1B3), (0x1B5, 0x1B5), (0x1B7, 0x1B8), (0x1BC, 0x1BC),
  (0x1C4, 0x1C4), (0x1C7, 0x1C7), (0x1CA, 0x1CA), (0x1CD, 0x1CD), (0x1CF, 0x1CF), (0x1D1, 0x1D1),
  (0x1D3, 0x1D3), (0x1D5, 0x1D5), (0x1D7, 0x1D7), (0x1D9, 0x1D9), (0x1DB, 0x1DB), (0x1DE, 0x1DE),
  (0x1E0, 0x1E0), (0x1E2, 0x1E2), (0x1E4, 0x1E4), (0x1E6, 0x1E6), (0x1E8, 0x1E8), (0x1EA, 0x1EA),
  (0x1EC, 0x1EC), (0x1EE, 0x1EE), (0x1F1, 0x1F1), (0x1F4, 0x1F4), (0x1F6, 0x1F8), (0x1FA, 0x1FA),
  (0x1FC, 0x1FC), (0x1FE, 0x1FE), (0x200, 0x200), (0x202, 0x202), (0x204, 0x204), (0x206, 0x206),
  (0x208, 0x208), (0x20A, 0x20A), (0x20C, 0x20C), (0x20E, 0x20E), (0x210, 0x210), (0x212, 0x212),
  (0x214, 0x214), (0x216, 0x216), (0x218, 0x218), (0x21A, 0x21A), (0x21C, 0x21C), (0x21E, 0x21E),
  (0x220, 0x220), (0x222, 0x222), (0x224, 0x224), (0x226, 0x226), (0x228, 0x228), (0x22A, 0x22A),
  (0x22C, 0x22C), (0x22E, 0x22E), (0x230, 0x230), (0x232, 0x232), (0x23A, 0x23B), (0x23D, 0x23E),
  (0x241, 0x241), (0x243, 0x246), (0x248, 0x248), (0x24A, 0x24A), (0x24C, 0x24C), (0x24E, 0x24E),
  (0x370, 0x370), (0x372, 0x372), (0x376, 0x376), (0x37F, 0x37F), (0x386, 0x386), (0x388, 0x38A),
  (0x38C, 0x38C), (0x38E, 0x38F), (0x391, 0x3A1), (0x3A3, 0x3AB), (0x3CF, 0x3CF), (0x3D2, 0x3D4),
  (0x3D8, 0x3D8), (0x3DA, 0x3DA), (0x3DC, 0x3DC), (0x3DE, 0x3DE), (0x3E0, 0x3E0), (0x3E2, 0x3E2),
  (0x3E4, 0x3E4), (0x3E6, 0x3E6), (0x3E8, 0x3E8), (0x3EA, 0x3EA), (0x3EC, 0x3EC), (0x3EE, 0x3EE),
  (0x3F4, 0x3F4), (0x3F7, 0x3F7), (0x3F9, 0x3FA), (0x3FD, 0x42F), (0x460, 0x460), (0x462, 0x462),
  (0x464, 0x464), (0x466, 0x466), (0x468, 0x468), (0x46A, 0x46A), (0x46C, 0x46C), (0x46E, 0x46E),
  (0x470, 0x470), (0x472, 0x472), (0x474, 0x474), (0x476, 0x476), (0x478, 0x478), (0x47A, 0x47A),
  (0x47C, 0x47C), (0x47E, 0x47E), (0x480, 0x480), (0x48A, 0x48A), (0x48C, 0x48C), (0x48E, 0x48E),
  (0x490, 0x490), (0x492, 0x492), (0x494, 0x494), (0x496, 0x496), (0x498, 0x498), (0x49A, 0x49A),
  (0x49C, 0x49C), (0x49E, 0x49E), (0x4A0, 0x4A0), (0x4A2, 0x4A2), (0x4A4, 0x4A4), (0x4A6, 0x4A6),
  (0x4A8, 0x4A8), (0x4AA, 0x4AA), (0x4AC, 0x4AC), (0x4AE, 0x4AE), (0x4B0, 0x4B0), (0x4B2, 0x4B2),
  (0x4B4, 0x4B4), (0x4B6, 0x4B6), (0x4B8, 0x4B8), (0x4BA, 0x4BA), (0x4BC, 0x4BC), (0x4BE, 0x4BE),
  (0x4C0, 0x4C1), (0x4C3, 0x4C3), (0x4C5, 0x4C5), (0x4C7, 0x4C7), (0x4C9, 0x4C9), (0x4CB, 0x4CB),
  (0x4CD, 0x4CD), (0x4D0, 0x4D0), (0x4D2, 0x4D2), (0x4D4, 0x4D4), (0x4D6, 0x4D6), (0x4D8, 0x4D8),
  (0x4DA, 0x4DA), (0x4DC, 0x4DC), (0x4DE, 0x4DE), (0x4E0, 0x4E0), (0x4E2, 0x4E2), (0x4E4, 0x4E4),
  (0x4E6, 0x4E6), (0x4E8, 0x4E8), (0x4EA, 0x4EA), (0x4EC, 0x4EC), (0x4EE, 0x4EE), (0x4F0, 0x4F0),
  (0x4F2, 0x4F2), (0x4F4, 0x4F4), (0x4F6, 0x4F6), (0x4F8, 0x4F8), (0x4FA, 0x4FA), (0x4FC, 0x4FC),
  (0x4FE, 0x4FE), (0x500, 0x500), (0x502, 0x502), (0x504, 0x504), (0x506, 0x506), (0x508, 0x508),
  (0x50A, 0x50A), (0x50C, 0x50C), (0x50E, 0x50E), (0x510, 0x510), (0x512, 0x512), (0x514, 0x514),
  (0x516, 0x516), (0x518, 0x518), (0x51A, 0x51A), (0x51C, 0x51C), (0x51E, 0x51E), (0x520, 0x520),
  (0x522, 0x522), (0x524, 0x524), (0x526, 0x526), (0x528, 0x528), (0x52A, 0x52A), (0x52C, 0x52C),
  (0x52E, 0x52E), (0x531, 0x556), (0x10A0, 0x10C5), (0x10C7, 0x10C7), (0x10CD, 0x10CD), (0x13A0, 0x13F5),
  (0x1C90, 0x1CBA), (0x1CBD, 0x1CBF), (0x1E00, 0x1E00), (0x1E02, 0x1E02), (0x1E04, 0x1E04), (0x1E06, 0x1E06),
  (0x1E08, 0x1E08), (0x1E0A, 0x1E0A), (0x1E0C, 0x1E0C), (0x1E0E, 0x1E0E), (0x1E10, 0x1E10), (0x1E12, 0x1E12),
  (0x1E14, 0x1E14), (0x1E16, 0x1E16), (0x1E18, 0x1E18), (0x1E1A, 0x1E1A), (0x1E1C, 0x1E1C), (0x1E1E, 0x1E1E),
  (0x1E20, 0x1E20), (0x1E22, 0x1E22), (0x1E24, 0x1E24), (0x1E26, 0x1E26), (0x1E28, 0x1E28), (0x1E2A, 0x1E2A),
  (0x1E2C, 0x1E2C), (0x1E2E, 0x1E2E), (0x1E30, 0x1E30), (0x1E32, 0x1E32), (0x1E34, 0x1E34), (0x1E36, 0x1E36),
  (0x1E38, 0x1E38), (0x1E3A, 0x1E3A), (0x1E3C, 0x1E3C), (0x1E3E, 0x1E3E), (0x1E40, 0x1E40), (0x1E42, 0x1E42),
  (0x1E44, 0x1E44), (0x1E46, 0x1E46), (0x1E48, 0x1E48), (0x1E4A, 0x1E4A), (0x1E4C, 0x1E4C), (0x1E4E, 0x1E4E),
  (0x1E50, 0x1E50), (0x1E52, 0x1E52), (0x1E54, 0x1E54), (0x1E56, 0x1E56), (0x1E58, 0x1E58), (0x1E5A, 0x1E5A),
  (0x1E5C, 0x1E5C), (0x1E5E, 0x1E5E), (0x1E60, 0x1E60), (0x1E62, 0x1E62), (0x1E64, 0x1E64), (0x1E66, 0x1E66),
  (0x1E68, 0x1E68), (0x1E6A, 0x1E6A), (0x1E6C, 0x1E6C), (0x1E6E, 0x1E6E), (0x1E70, 0x1E70), (0x1E72, 0x1E72),
  (0x1E74, 0x1E74), (0x1E76, 0x1E76), (0x1E78, 0x1E78), (0x1E7A, 0x1E7A), (0x1E7C, 0x1E7C), (0x1E7E, 0x1E7E),
  (0x1E80, 0x1E80), (0x1E82, 0x1E82), (0x1E84, 0x1E84), (0x1E86, 0x1E86), (0x1E88, 0x1E88), (0x1E8A, 0x1E8A),
  (0x1E8C, 0x1E8C), (0x1E8E, 0x1E8E), (0x1E90, 0x1E90), (0x1E92, 0x1E92), (0x1E94, 0x1E94), (0x1E9E, 0x1E9E),
  (0x1EA0, 0x1EA0), (0x1EA2, 0x1EA2), (0x1EA4, 0x1EA4), (0x1EA6, 0x1EA6), (0x1EA8, 0x1EA8), (0x1EAA, 0x1EAA),
  (0x1EAC, 0x1EAC), (0x1EAE, 0x1EAE), (0x1EB0, 0x1EB0), (0x1EB2, 0x1EB2), (0x1EB4, 0x1EB4), (0x1EB6, 0x1EB6),
  (0x1EB8, 0x1EB8), (0x1EBA, 0x1EBA), (0x1EBC, 0x1EBC), (0x1EBE, 0x1EBE), (0x1EC0, 0x1EC0), (0x1EC2, 0x1EC2),
  (0x1EC4, 0x1EC4), (0x1EC6, 0x1EC6), (0x1EC8, 0x1EC8), (0x1ECA, 0x1ECA), (0x1ECC, 0x1ECC), (0x1ECE, 0x1ECE),
  (0x1ED0, 0x1ED0), (0x1ED2, 0x1ED2), (0x1ED4, 0x1ED4), (0x1ED6, 0x1ED6), (0x1ED8, 0x1ED8), (0x1EDA, 0x1EDA),
  (0x1EDC, 0x1EDC), (0x1EDE, 0x1EDE), (0x1EE0, 0x1EE0), (0x1EE2, 0x1EE2), (0x1EE4, 0x1EE4), (0x1EE6, 0x1EE6),
  (0x1EE8, 0x1EE8), (0x1EEA, 0x1EEA), (0x1EEC, 0x1EEC), (0x1EEE, 0x1EEE), (0x1EF0, 0x1EF0), (0x1EF2, 0x1EF2),
  (0x1EF4, 0x1EF4), (0x1EF6, 0x1EF6), (0x1EF8, 0x1EF8), (0x1EFA, 0x1EFA), (0x1EFC, 0x1EFC), (0x1EFE, 0x1EFE),
  (0x1F08, 0x1F0F), (0x1F18, 0x1F1D), (0x1F28, 0x1F2F), (0x1F38, 0x1F3F), (0x1F48, 0x1F4D), (0x1F59, 0x1F59),
  (0x1F5B, 0x1F5B), (0x1F5D, 0x1F5D), (0x1F5F, 0x1F5F), (0x1F68, 0x1F6F), (0x1FB8, 0x1FBB), (0x1FC8, 0x1FCB),
  (0x1FD8, 0x1FDB), (0x1FE8, 0x1FEC), (0x1FF8, 0x1FFB), (0x2102, 0x2102), (0x2107, 0x2107), (0x210B, 0x210D),
  (0x2110, 0x2112), (0x2115, 0x2115), (0x2119, 0x211D), (0x2124, 0x2124), (0x2126, 0x2126), (0x2128, 0x2128),
  (0x212A, 0x212D), (0x2130, 0x2133), (0x213E, 0x213F), (0x2145, 0x2145), (0x2183, 0x2183), (0x2C00, 0x2C2F),
  (0x2C60, 0x2C60), (0x2C62, 0x2C64), (0x2C67, 0x2C67), (0x2C69, 0x2C69), (0x2C6B, 0x2C6B), (0x2C6D, 0x2C70),
  (0x2C72, 0x2C72), (0x2C75, 0x2C75), (0x2C7E, 0x2C80), (0x2C82, 0x2C82), (0x2C84, 0x2C84), (0x2C86, 0x2C86),
  (0x2C88, 0x2C88), (0x2C8A, 0x2C8A), (0x2C8C, 0x2C8C), (0x2C8E, 0x2C8E), (0x2C90, 0x2C90), (0x2C92, 0x2C92),
  (0x2C94, 0x2C94), (0x2C96, 0x2C96), (0x2C98, 0x2C98), (0x2C9A, 0x2C9A), (0x2C9C, 0x2C9C), (0x2C9E, 0x2C9E),
  (0x2CA0, 0x2CA0), (0x2CA2, 0x2CA2), (0x2CA4, 0x2CA4), (0x2CA6, 0x2CA6), (0x2CA8, 0x2CA8), (0x2CAA, 0x2CAA),
  (0x2CAC, 0x2CAC), (0x2CAE, 0x2CAE), (0x2CB0, 0x2CB0), (0x2CB2, 0x2CB2), (0x2CB4, 0x2CB4), (0x2CB6, 0x2CB6),
  (0x2CB8, 0x2CB8), (0x2CBA, 0x2CBA), (0x2CBC, 0x2CBC), (0x2CBE, 0x2CBE), (0x2CC0, 0x2CC0), (0x2CC2, 0x2CC2),
  (0x2CC4, 0x2CC4), (0x2CC6, 0x2CC6), (0x2CC8, 0x2CC8), (0x2CCA, 0x2CCA), (0x2CCC, 0x2CCC), (0x2CCE, 0x2CCE),
  (0x2CD0, 0x2CD0), (0x2CD2, 0x2CD2), (0x2CD4, 0x2CD4), (0x2CD6, 0x2CD6), (0x2CD8, 0x2CD8), (0x2CDA, 0x2CDA),
  (0x2CDC, 0x2CDC), (0x2CDE, 0x2CDE), (0x2CE0, 0x2CE0), (0x2CE2, 0x2CE2), (0x2CEB, 0x2CEB), (0x2CED, 0x2CED),
  (0x2CF2, 0x2CF2), (0xA640, 0xA640), (0xA642, 0xA642), (0xA644, 0xA644), (0xA646, 0xA646), (0xA648, 0xA648),
  (0xA64A, 0xA64A), (0xA64C, 0xA64C), (0xA64E, 0xA64E), (0xA650, 0xA650), (0xA652, 0xA652), (0xA654, 0xA654),
  (0xA656, 0xA656), (0xA658, 0xA658), (0xA65A, 0xA65A), (0xA65C, 0xA65C), (0xA65E, 0xA65E), (0xA660, 0xA660),
  (0xA662, 0xA662), (0xA664, 0xA664), (0xA666, 0xA666), (0xA668, 0xA668), (0xA66A, 0xA66A), (0xA66C, 0xA66C),
  (0xA680, 0xA680), (0xA682, 0xA682), (0xA684, 0xA684), (0xA686, 0xA686), (0xA688, 0xA688), (0xA68A, 0xA68A),
  (0xA68C, 0xA68C), (0xA68E, 0xA68E), (0xA690, 0xA690), (0xA692, 0xA692), (0xA694, 0xA694), (0xA696, 0xA696),
  (0xA698, 0xA698), (0xA69A, 0xA69A), (0xA722, 0xA722), (0xA724, 0xA724), (0xA726, 0xA726), (0xA728, 0xA728),
  (0xA72A, 0xA72A), (0xA72C, 0xA72C), (0xA72E, 0xA72E), (0xA732, 0xA732), (0xA734, 0xA734), (0xA736, 0xA736),
  (0xA738, 0xA738), (0xA73A, 0xA73A), (0xA73C, 0xA73C), (0xA73E, 0xA73E), (0xA740, 0xA740), (0xA742, 0xA742),
  (0xA744, 0xA744), (0xA746, 0xA746), (0xA748, 0xA748), (0xA74A, 0xA74A), (0xA74C, 0xA74C), (0xA74E, 0xA74E),
  (0xA750, 0xA750), (0xA752, 0xA752), (0xA754, 0xA754), (0xA756, 0xA756), (0xA758, 0xA758), (0xA75A, 0xA75A),
  (0xA75C, 0xA75C), (0xA75E, 0xA75E), (0xA760, 0xA760), (0xA762, 0xA762), (0xA764, 0xA764), (0xA766, 0xA766),
  (0xA768, 0xA768), (0xA76A, 0xA76A), (0xA76C, 0xA76C), (0xA76E, 0xA76E), (0xA779, 0xA779), (0xA77B, 0xA77B),
  (0xA77D, 0xA77E), (0xA780, 0xA780), (0xA782, 0xA782), (0xA784, 0xA784), (0xA786, 0xA786), (0xA78B, 0xA78B),
  (0xA78D, 0xA78D), (0xA790, 0xA790), (0xA792, 0xA792), (0xA796, 0xA796), (0xA798, 0xA798), (0xA79A, 0xA79A),
  (0xA79C, 0xA79C), (0xA79E, 0xA79E), (0xA7A0, 0xA7A0), (0xA7A2, 0xA7A2), (0xA7A4, 0xA7A4), (0xA7A6, 0xA7A6),
  (0xA7A8, 0xA7A8), (0xA7AA, 0xA7AE), (0xA7B0, 0xA7B4), (0xA7B6, 0xA7B6), (0xA7B8, 0xA7B8), (0xA7BA, 0xA7BA),
  (0xA7BC, 0xA7BC), (0xA7BE, 0xA7BE), (0xA7C0, 0xA7C0), (0xA7C2, 0xA7C2), (0xA7C4, 0xA7C7), (0xA7C9, 0xA7C9),
  (0xA7D0, 0xA7D0), (0xA7D6, 0xA7D6), (0xA7D8, 0xA7D8), (0xA7F5, 0xA7F5), (0xFF21, 0xFF3A), (0x10400, 0x10427),
  (0x104B0, 0x104D3), (0x10570, 0x1057A), (0x1057C, 0x1058A), (0x1058C, 0x10592), (0x10594, 0x10595), (0x10C80, 0x10CB2),
  (0x118A0, 0x118BF), (0x16E40, 0x16E5F), (0x1D400, 0x1D419), (0x1D434, 0x1D44D), (0x1D468, 0x1D481), (0x1D49C, 0x1D49C),
  (0x1D49E, 0x1D49F), (0x1D4A2, 0x1D4A2), (0x1D4A5, 0x1D4A6), (0x1D4A9, 0x1D4AC), (0x1D4AE, 0x1D4B5), (0x1D4D0, 0x1D4E9),
  (0x1D504, 0x1D505), (0x1D507, 0x1D50A), (0x1D50D, 0x1D514), (0x1D516, 0x1D51C), (0x1D538, 0x1D539), (0x1D53B, 0x1D53E),
  (0x1D540, 0x1D544), (0x1D546, 0x1D546), (0x1D54A, 0x1D550), (0x1D56C, 0x1D585), (0x1D5A0, 0x1D5B9), (0x1D5D4, 0x1D5ED),
  (0x1D608, 0x1D621), (0x1D63C, 0x1D655), (0x1D670, 0x1D689), (0x1D6A8, 0x1D6C0), (0x1D6E2, 0x1D6FA), (0x1D71C, 0x1D734),
  (0x1D756, 0x1D76E), (0x1D790, 0x1D7A8), (0x1D7CA, 0x1D7CA), (0x1E900, 0x1E921)]

/-- `unicode.IsUpper`: the rune is a Unicode uppercase letter (category
Lu). -/
def isUpperRune (c : Char) : Bool :=
  upperRanges.any fun p => decide (p.1 ≤ c.toNat) && decide (c.toNat ≤ p.2)

/-- The exported-name convention checked by `Import` in `main.go`:
`unicode.IsUpper` of the first rune of the name
(`utf8.DecodeRuneInString`).  The empty string decodes to the replacement
rune, which is not uppercase, so it is not exported. -/
def isExportedName (name : String) : Bool :=
  match name.data with
  | [] => false
  | c :: _ => isUpperRune c

/-- Modelled from the spec: `go/types` `Scope.Insert` — insert-once.  If the
name is already bound the scope is left unchanged (§3: entries are
append-only, never rebound). -/
def insertObj (objs : List (String × Obj)) (name : String) (o : Obj) :
    List (String × Obj) :=
  if (objs.lookup name).isSome then objs else objs ++ [(name, o)]

/-- View a numeric value as an exact complex number; `none` for Bool and
String operands. -/
def Value.toComplexPair : Value → Option (Q × Q)
  | .vInt n => some (Q.ofInt n, Q.ofInt 0)
  | .vFloat q => some (q, Q.ofInt 0)
  | .vComplex re im => some (re, im)
  | _ => none

/-- Promote a pair of numeric values to their least upper kind under
Int < Float < Complex and return them with that kind (§4.3).  `none` when
either operand is Bool or String. -/
def promote2 : Value → Value → Option (Kind × (Q × Q) × (Q × Q))
  | x, y =>
    match x.toComplexPair, y.toComplexPair with
    | some p, some q =>
        let k : Kind :=
          match x.kind, y.kind with
          | .complex, _ => .complex
          | _, .complex => .complex
          | .float, _ => .float
          | _, .float => .float
          | _, _ => .int
        some (k, p, q)
    | _, _ => none

/-- Rebuild a value of the given numeric kind from exact rational real and
imaginary parts.  For kind `int` the real part is integral by construction
(exact Int arithmetic never leaves the integers). -/
def mkNum (k : Kind) (re im : Q) : Value :=
  match k with
  | .complex => .vComplex re im
  | .float => .vFloat re
  | _ => .vInt re.num

/-- Modelled from the spec: bitwise operators are defined only over Int
(§4.3, arbitrary-precision two's-complement semantics). -/
def intBin (f : ℤ → ℤ → ℤ) : Value → Value → Except Err Value
  | .vInt a, .vInt b => .ok (.vInt (f a b))
  | _, _ => .error .typeMismatch

/-- Modelled from the spec: the shift count must be a non-negative Int; a
negative or non-Int numeric count fails with `InvalidShift` (§4.3). -/
def shiftCount : Value → Except Err ℕ
  | .vInt n => if 0 ≤ n then .ok n.toNat else .error .invalidShift
  | .vFloat _ => .error .invalidShift
  | .vComplex _ _ => .error .invalidShift
  | _ => .error .typeMismatch

/-- Modelled from the spec: shifts — left operand must be Int; shifting is
exact and unbounded, left-shift multiplies by `2^k`, right-shift is the
arithmetic (floor) shift (§4.3). -/
def shiftOp (isLeft : Bool) (x y : Value) : Except Err Value :=
  match x with
  | .vInt n =>
    match shiftCount y with
    | .error e => .error e
    | .ok k => .ok (.vInt (if isLeft then n * ((2 ^ k : ℕ) : ℤ)
                           else Int.fdiv n ((2 ^ k : ℕ) : ℤ)))
  | _ => .error .typeMismatch

/-- Modelled from the spec: comparison operators (§4.3).  Bool admits only
equality, String all six (lexicographic), Int/Float all six after promotion,
Complex only equality; results are Bool, always exact. -/
def cmpOp (op : BinOp) (x y : Value) : Except Err Value :=
  match x, y with
  | .vBool a, .vBool b =>
    match op with
    | .eq => .ok (.vBool (a == b))
    | .neq => .ok (.vBool (a != b))
    | _ => .error .typeMismatch
  | .vString a, .vString b =>
    match op with
    | .eq => .ok (.vBool (a == b))
    | .neq => .ok (.vBool (a != b))
    | .lt => .ok (.vBool (decide (a < b)))
    | .leq => .ok (.vBool (decide (a < b) || a == b))
    | .gt => .ok (.vBool (decide (b < a)))
    | .geq => .ok (.vBool (decide (b < a) || a == b))
    | _ => .error .typeMismatch
  | _, _ =>
    match promote2 x y with
    | some (k, (a, b), (c, d)) =>
      match op, k with
      | .eq, _ => .ok (.vBool (a == c && b == d))
      | .neq, _ => .ok (.vBool (!(a == c && b == d)))
      | .lt, .complex => .error .typeMismatch
      | .lt, _ => .ok (.vBool (a.blt c))
      | .leq, .complex => .error .typeMismatch
      | .leq, _ => .ok (.vBool (a.ble c))
      | .gt, .complex => .error .typeMismatch
      | .gt, _ => .ok (.vBool (c.blt a))
      | .geq, .complex => .error .typeMismatch
      | .geq, _ => .ok (.vBool (c.ble a))
      | _, _ => .error .typeMismatch
    | none => .error .typeMismatch

/-- Modelled from the spec: binary operator semantics over the constant
value domain (§4.3).  `&&`/`||` never reach this function — they are
short-circuited by the evaluator — and map to `TypeMismatch` here. -/
def applyBin (op : BinOp) (x y : Value) : Except Err Value :=
  match op with
  | .add =>
    match x, y with
    | .vString a, .vString b => .ok (.vString (a ++ b))
    | _, _ =>
      match promote2 x y with
      | some (k, (a, b), (c, d)) => .ok (mkNum k (a.add c) (b.add d))
      | none => .error .typeMismatch
  | .sub =>
    match promote2 x y with
    | some (k, (a, b), (c, d)) => .ok (mkNum k (a.sub c) (b.sub d))
    | none => .error .typeMismatch
  | .mul =>
    match promote2 x y with
    | some (k, (a, b), (c, d)) =>
      .ok (mkNum k ((a.mul c).sub (b.mul d)) ((a.mul d).add (b.mul c)))
    | none => .error .typeMismatch
  | .quo =>
    match promote2 x y with
    | some (k, (a, b), (c, d)) =>
      if c.isZero && d.isZero then .error .divisionByZero
      else
        match k with
        | .int => .ok (.vInt (Int.tdiv a.num c.num))
        | .float => .ok (.vFloat (a.div c))
        | _ =>
          let n := (c.mul c).add (d.mul d)
          .ok (.vComplex (((a.mul c).add (b.mul d)).div n)
                         (((b.mul c).sub (a.mul d)).div n))
    | none => .error .typeMismatch
  | .rem =>
    match x, y with
    | .vInt a, .vInt b =>
      if b = 0 then .error .divisionByZero else .ok (.vInt (Int.tmod a b))
    | _, _ => .error .typeMismatch
  | .and => intBin Int.land x y
  | .or => intBin Int.lor x y
  | .xor => intBin Int.xor x y
  | .andNot => intBin (fun a b => Int.land a (Int.lnot b)) x y
  | .shl => shiftOp true x y
  | .shr => shiftOp false x y
  | .eq | .neq | .lt | .leq | .gt | .geq => cmpOp op x y
  | .land | .lor => .error .typeMismatch

/-- Modelled from the spec: unary operator semantics (§4.3): `-`/`+` over
numeric kinds, `!` over Bool, `^` exact bitwise complement over Int. -/
def applyUn (op : UnOp) (x : Value) : Except Err Value :=
  match op, x with
  | .neg, .vInt n => .ok (.vInt (-n))
  | .neg, .vFloat q => .ok (.vFloat q.neg)
  | .neg, .vComplex re im => .ok (.vComplex re.neg im.neg)
  | .pos, .vInt n => .ok (.vInt n)
  | .pos, .vFloat q => .ok (.vFloat q)
  | .pos, .vComplex re im => .ok (.vComplex re im)
  | .not, .vBool b => .ok (.vBool (!b))
  | .compl, .vInt n => .ok (.vInt (Int.lnot n))
  | _, _ => .error .typeMismatch

/-- Modelled from the spec: the evaluator (§4.4, `types.Eval` and the
`go/constant` engine).  Literals evaluate to their value; identifiers
resolve in the scope (qualified identifiers through imported sub-scopes,
seeing exported entries only); `&&`/`||` short-circuit: the right operand is
not evaluated when the left already determines the result; other operators
evaluate both operands left to right and apply §4.3 semantics. -/
def eval (s : Scope) : Expr → Except Err Value
  | .lit v => .ok v
  | .ident name =>
    match s.objects.lookup name with
    | some (.const v) => .ok v
    | some (.pkg _) => .error (.namespaceError name)
    | none => .error (.unknownIdentifier name)
  | .qident ns name =>
    match s.objects.lookup ns with
    | some (.pkg libObjs) =>
      if isExportedName name then
        match libObjs.lookup name with
        | some (.const v) => .ok v
        | _ => .error (.unknownIdentifier (ns ++ "." ++ name))
      else .error (.unknownIdentifier (ns ++ "." ++ name))
    | some (.const _) => .error (.namespaceError ns)
    | none => .error (.unknownIdentifier (ns ++ "." ++ name))
  | .un op e =>
    match eval s e with
    | .error err => .error err
    | .ok v => applyUn op v
  | .bin .land l r =>
    match eval s l with
    | .error err => .error err
    | .ok (.vBool false) => .ok (.vBool false)
    | .ok (.vBool true) =>
      match eval s r with
      | .error err => .error err
      | .ok (.vBool b) => .ok (.vBool b)
      | .ok _ => .error .typeMismatch
    | .ok _ => .error .typeMismatch
  | .bin .lor l r =>
    match eval s l with
    | .error err => .error err
    | .ok (.vBool true) => .ok (.vBool true)
    | .ok (.vBool false) =>
      match eval s r with
      | .error err => .error err
      | .ok (.vBool b) => .ok (.vBool b)
      | .ok _ => .error .typeMismatch
    | .ok _ => .error .typeMismatch
  | .bin op l r =>
    match eval s l with
    | .error err => .error err
    | .ok x =>
      match eval s r with
      | .error err => .error err
      | .ok y => applyBin op x y

/-- A binary floating-point result: a finite value (an exactly representable
rational), an infinity, or NaN. -/
inductive Flt where
  | fin (q : Q)
  | inf
  | neginf
  | nan
deriving DecidableEq, Repr

/-- Floor logarithm base 2 of a positive natural, by fuel-bounded halving
(structural recursion so that the kernel can evaluate it). -/
def log2fuel : ℕ → ℕ → ℕ
  | 0, _ => 0
  | fuel + 1, n => if n ≤ 1 then 0 else log2fuel fuel (n / 2) + 1

/-- Ceiling logarithm base 2 of a positive natural, by fuel-bounded
halving. -/
def clog2fuel : ℕ → ℕ → ℕ
  | 0, _ => 0
  | fuel + 1, n => if n ≤ 1 then 0 else clog2fuel fuel ((n + 1) / 2) + 1

/-- Floor logarithm base 2 of a positive exact rational: the greatest `k`
with `2^k ≤ q`.  For `q ≥ 1` it is the floor log of `⌊q⌋`; for `0 < q < 1`
it is minus the ceiling log of `⌈q⁻¹⌉`. -/
def floorLog2 (q : Q) : ℤ :=
  if (q.den : ℤ) ≤ q.num then
    (log2fuel (q.num.toNat / q.den) (q.num.toNat / q.den) : ℤ)
  else
    let m := (q.den + q.num.toNat - 1) / q.num.toNat
    let c : ℤ := (clog2fuel m m : ℤ)
    Neg.neg c

/-- Round half to even: the integer nearest to `x`, ties to the even one. -/
def rheQ (x : Q) : ℤ :=
  let f := Int.fdiv x.num x.den
  let fracNum := x.num - f * x.den
  if 2 * fracNum < (x.den : ℤ) then f
  else if (x.den : ℤ) < 2 * fracNum then f + 1
  else if f % 2 = 0 then f else f + 1

/-- Modelled from the spec: conversion of an exact rational to the nearest
representable binary float of the given precision and exponent bound
(`constant.Float64Val` / `Float32Val`, §4.6: "the exact rational is
converted to the nearest representable binary float").  `prec` is the
significand width in bits, values of magnitude at least `2^emax` overflow to
an infinity, and the subnormal grid bottoms out at `2^(2-emax-(prec-1))`. -/
def roundFlt (prec emax : ℤ) (q : Q) : Flt :=
  if q.num = 0 then .fin (Q.ofInt 0)
  else
    let g : ℤ := max (floorLog2 q.abs - (prec - 1)) (2 - emax - (prec - 1))
    let r : Q := (Q.ofInt (rheQ (q.mul (Q.pow2 (-g))))).mul (Q.pow2 g)
    if (Q.pow2 emax).ble r then .inf
    else if r.ble (Q.pow2 emax).neg then .neginf
    else .fin r

/-- Rounding to IEEE binary64 (`constant.Float64Val`). -/
def float64Val (q : Q) : Flt := roundFlt 53 1024 q

/-- Rounding to IEEE binary32 (`constant.Float32Val`). -/
def float32Val (q : Q) : Flt := roundFlt 24 128 q

/-- Modelled from the spec: `constant.ToFloat` — a value converts to Float
when it is Int, Float, or Complex with exactly zero imaginary part (§4.6);
`none` plays the role of the `Unknown` result. -/
def toFloatV : Value → Option Q
  | .vInt n => some (Q.ofInt n)
  | .vFloat q => some q
  | .vComplex re im => if im.isZero then some re else none
  | _ => none

/-- Modelled from the spec: `constant.ToComplex` — any numeric value
converts to Complex (§4.6). -/
def toComplexV : Value → Option (Q × Q)
  | .vInt n => some (Q.ofInt n, Q.ofInt 0)
  | .vFloat q => some (q, Q.ofInt 0)
  | .vComplex re im => some (re, im)
  | _ => none

/-- Modelled from the spec: `constant.ToInt` — a value converts to Int when
it is Int, or Float/Complex with zero fractional and zero imaginary part
(§4.6). -/
def toIntV : Value → Option ℤ
  | .vInt n => some n
  | .vFloat q => if q.isInt then some q.num else none
  | .vComplex re im => if im.isZero && re.isInt then some re.num else none
  | _ => none

def int64Min : ℤ := -((2 ^ 63 : ℕ) : ℤ)

def int64Max : ℤ := ((2 ^ 63 : ℕ) : ℤ) - 1

def uint64Max : ℤ := ((2 ^ 64 : ℕ) : ℤ) - 1

/-- `Scope.Assign` from `main.go`: evaluate the expression against the
current scope, then bind the result to `name` only if `name` is not already
bound (`go/types` `Scope.Insert` is insert-once); evaluation errors are
returned and bind nothing. -/
def Scope.Assign (s : Scope) (name : String) (e : Expr) : Scope × Option Err :=
  match eval s e with
  | .error err => (s, some err)
  | .ok v => (⟨insertObj s.objects name (.const v)⟩, none)

/-- A native Go value passed to `AssignValue`: one of the sixteen recognized
kinds, or anything else (`other`).  Floating payloads carry the exact
rational the finite float denotes; fixed-width integer payloads carry the
integer value. -/
inductive NativeValue where
  | nFloat64 (x : Q)
  | nFloat32 (x : Q)
  | nComplex128 (re im : Q)
  | nComplex64 (re im : Q)
  | nInt64 (n : ℤ)
  | nInt32 (n : ℤ)
  | nInt16 (n : ℤ)
  | nInt8 (n : ℤ)
  | nInt (n : ℤ)
  | nUint64 (n : ℕ)
  | nUint32 (n : ℕ)
  | nUint16 (n : ℕ)
  | nUint8 (n : ℕ)
  | nUint (n : ℕ)
  | nBool (b : Bool)
  | nString (s : String)
  | other
deriving DecidableEq, Repr

/-- `Scope.AssignValue` from `main.go`: a type switch over the sixteen
recognized native kinds, binding the corresponding constant value with the
same insert-once rule as `Assign`; the default case panics (`none`). -/
def Scope.AssignValue (s : Scope) (name : String) (v : NativeValue) :
    Option Scope :=
  match v with
  | .nFloat64 x => some ⟨insertObj s.objects name (.const (.vFloat x))⟩
  | .nFloat32 x => some ⟨insertObj s.objects name (.const (.vFloat x))⟩
  | .nComplex128 re im => some ⟨insertObj s.objects name (.const (.vComplex re im))⟩
  | .nComplex64 re im => some ⟨insertObj s.objects name (.const (.vComplex re im))⟩
  | .nInt64 n => some ⟨insertObj s.objects name (.const (.vInt n))⟩
  | .nInt32 n => some ⟨insertObj s.objects name (.const (.vInt n))⟩
  | .nInt16 n => some ⟨insertObj s.objects name (.const (.vInt n))⟩
  | .nInt8 n => some ⟨insertObj s.objects name (.const (.vInt n))⟩
  | .nInt n => some ⟨insertObj s.objects name (.const (.vInt n))⟩
  | .nUint64 n => some ⟨insertObj s.objects name (.const (.vInt n))⟩
  | .nUint32 n => some ⟨insertObj s.objects name (.const (.vInt n))⟩
  | .nUint16 n => some ⟨insertObj s.objects name (.const (.vInt n))⟩
  | .nUint8 n => some ⟨insertObj s.objects name (.const (.vInt n))⟩
  | .nUint n => some ⟨insertObj s.objects name (.const (.vInt n))⟩
  | .nBool b => some ⟨insertObj s.objects name (.const (.vBool b))⟩
  | .nString str => some ⟨insertObj s.objects name (.const (.vString str))⟩
  | .other => none

/-- `Scope.Import` from `main.go`: an error (and no binding) if `name` is
exported — first character capitalized; otherwise insert `name` as a
package object referencing the library's entries, in the same insert-once
object name space as constants. -/
def Scope.Import (s : Scope) (name : String) (lib : Scope) : Scope × Option Err :=
  if isExportedName name then (s, some (.namespaceError name))
  else (⟨insertObj s.objects name (.pkg lib.objects)⟩, none)

/-- `Scope.Float64` from `main.go`: evaluate, force conversion to Float,
round to binary64; `NaN` with the error on failure. -/
def Scope.Float64 (s : Scope) (e : Expr) : Flt × Option Err :=
  match eval s e with
  | .error err => (.nan, some err)
  | .ok v =>
    match toFloatV v with
    | none => (.nan, some (.notRepresentable "float"))
    | some q => (float64Val q, none)

/-- `Scope.Float32` from `main.go`. -/
def Scope.Float32 (s : Scope) (e : Expr) : Flt × Option Err :=
  match eval s e with
  | .error err => (.nan, some err)
  | .ok v =>
    match toFloatV v with
    | none => (.nan, some (.notRepresentable "float"))
    | some q => (float32Val q, none)

/-- `Scope.Complex128` from `main.go`: evaluate, force conversion to
Complex, round each component to binary64; the named return value `cplx`
stays complex zero on failure. -/
def Scope.Complex128 (s : Scope) (e : Expr) : (Flt × Flt) × Option Err :=
  match eval s e with
  | .error err => ((.fin (Q.ofInt 0), .fin (Q.ofInt 0)), some err)
  | .ok v =>
    match toComplexV v with
    | none => ((.fin (Q.ofInt 0), .fin (Q.ofInt 0)), some (.notRepresentable "complex"))
    | some (re, im) => ((float64Val re, float64Val im), none)

/-- `Scope.Complex64` from `main.go`. -/
def Scope.Complex64 (s : Scope) (e : Expr) : (Flt × Flt) × Option Err :=
  match eval s e with
  | .error err => ((.fin (Q.ofInt 0), .fin (Q.ofInt 0)), some err)
  | .ok v =>
    match toComplexV v with
    | none => ((.fin (Q.ofInt 0), .fin (Q.ofInt 0)), some (.notRepresentable "complex"))
    | some (re, im) => ((float32Val re, float32Val im), none)

/-- `Scope.Int` from `main.go`: evaluate, force conversion to Int
(`constant.ToInt`), then require the exact value to fit in `int64`
(`constant.Int64Val`); `0` with the error on failure. -/
def Scope.Int (s : Scope) (e : Expr) : ℤ × Option Err :=
  match eval s e with
  | .error err => (0, some err)
  | .ok v =>
    match toIntV v with
    | none => (0, some (.notRepresentable "int"))
    | some i =>
      if int64Min ≤ i ∧ i ≤ int64Max then (i, none)
      else (0, some (.notRepresentable "int64"))

/-- `Scope.Uint` from `main.go`: as `Scope.Int` but through
`constant.Uint64Val`. -/
def Scope.Uint (s : Scope) (e : Expr) : ℕ × Option Err :=
  match eval s e with
  | .error err => (0, some err)
  | .ok v =>
    match toIntV v with
    | none => (0, some (.notRepresentable "int"))
    | some i =>
      if 0 ≤ i ∧ i ≤ uint64Max then (i.toNat, none)
      else (0, some (.notRepresentable "uint64"))

/-- `Scope.Bool` from `main.go`: the evaluated value's kind must be exactly
Bool; `false` with the error on failure. -/
def Scope.Bool (s : Scope) (e : Expr) : Bool × Option Err :=
  match eval s e with
  | .error err => (false, some err)
  | .ok (.vBool b) => (b, none)
  | .ok _ => (false, some (.notRepresentable "bool"))

/-- `Scope.String` from `main.go`: the evaluated value's kind must be
exactly String; `""` with the error on failure. -/
def Scope.String (s : Scope) (e : Expr) : String × Option Err :=
  match eval s e with
  | .error err => ("", some err)
  | .ok (.vString str) => (str, none)
  | .ok _ => ("", some (.notRepresentable "string"))

namespace Calc

/-- Package-level `Float32` from `main.go`: `return Scope{}.Float32(expr)`. -/
def Float32 (e : Expr) : Flt × Option Err := Scope.empty.Float32 e

/-- Package-level `Float64` from `main.go`: `return Scope{}.Float64(expr)`. -/
def Float64 (e : Expr) : Flt × Option Err := Scope.empty.Float64 e

/-- Package-level `Complex64` from `main.go`: `return Scope{}.Complex64(expr)`. -/
def Complex64 (e : Expr) : (Flt × Flt) × Option Err := Scope.empty.Complex64 e

/-- Package-level `Complex128` from `main.go`: `return Scope{}.Complex128(expr)`. -/
def Complex128 (e : Expr) : (Flt × Flt) × Option Err := Scope.empty.Complex128 e

/-- Package-level `Int` from `main.go`: `return Scope{}.Int(expr)`. -/
def Int (e : Expr) : ℤ × Option Err := Scope.empty.Int e

/-- Package-level `Uint` from `main.go`: `return Scope{}.Uint(expr)`. -/
def Uint (e : Expr) : ℕ × Option Err := Scope.empty.Uint e

/-- Package-level `Bool` from `main.go`: `return Scope{}.Bool(expr)`. -/
def Bool (e : Expr) : Bool × Option Err := Scope.empty.Bool e

/-- Package-level `String` from `main.go`: `return Scope{}.String(expr)`. -/
def String (e : Expr) : String × Option Err := Scope.empty.String e

end Calc

/-! ## Concrete expressions and scopes used by the examples in the spec -/

/-- The expression `1<<100 + 2 - 1<<100` (octal/hex-free, pure shifts). -/
def overflowExpr : Expr :=
  .bin .sub
    (.bin .add (.bin .shl (.lit (.vInt 1)) (.lit (.vInt 100))) (.lit (.vInt 2)))
    (.bin .shl (.lit (.vInt 1)) (.lit (.vInt 100)))

/-- The exact rational `5/2`, the value of the float literal `2.5`. -/
def twoPointFive : Q := ⟨5, 2⟩

/-- The expression `2.5*1`. -/
def exprTwoFiveTimesOne : Expr := .bin .mul (.lit (.vFloat twoPointFive)) (.lit (.vInt 1))

/-- The expression `2.5*24*60*60` (left associated, as parsed). -/
def exprTwoFiveDay : Expr :=
  .bin .mul
    (.bin .mul (.bin .mul (.lit (.vFloat twoPointFive)) (.lit (.vInt 24))) (.lit (.vInt 60)))
    (.lit (.vInt 60))

/-- The library scope with entries `S=1, M=60*S, H=60*M, D=24*H`, built with
`Assign` so that later entries reference earlier ones. -/
def timeLib : Scope :=
  ((((Scope.empty.Assign "S" (.lit (.vInt 1))).1.Assign
      "M" (.bin .mul (.lit (.vInt 60)) (.ident "S"))).1.Assign
      "H" (.bin .mul (.lit (.vInt 60)) (.ident "M"))).1.Assign
      "D" (.bin .mul (.lit (.vInt 24)) (.ident "H"))).1

/-- The scope `c` after `Import("time", lib)`. -/
def timeScope : Scope := (Scope.empty.Import "time" timeLib).1

/-- The expression `2*time.D + 4*time.H`. -/
def timeExpr : Expr :=
  .bin .add (.bin .mul (.lit (.vInt 2)) (.qident "time" "D"))
            (.bin .mul (.lit (.vInt 4)) (.qident "time" "H"))

/-- The scope after `Assign("x","1")` followed by `Assign("x","2")`. -/
def doubleAssignScope : Scope :=
  ((Scope.empty.Assign "x" (.lit (.vInt 1))).1.Assign "x" (.lit (.vInt 2))).1

/-- A scope with the single binding `x = 5`, used as a witness input. -/
def boundScope : Scope := ⟨[("x", .const (.vInt 5))]⟩

/-! ## Theorems for the claims -/

/-- C1: for all integer literals `a`, `b`, evaluating `a + b` in an empty
scope and narrowing via `Int` yields the mathematically exact sum whenever
that sum fits in `int64`; in particular `Int("1<<100 + 2 - 1<<100")` returns
`2` with nil error even though the intermediate values exceed the 64-bit
range. -/
theorem exact_int_sum (a b : ℕ) (h : ((a : ℤ) + (b : ℤ)) ≤ int64Max) :
    Scope.empty.Int (.bin .add (.lit (.vInt (a : ℤ))) (.lit (.vInt (b : ℤ))))
      = ((a : ℤ) + (b : ℤ), none)
    ∧ Scope.empty.Int overflowExpr = (2, none) := by
  refine ⟨?_, by decide⟩
  have hnorm : Q.norm ((a : ℤ) + (b : ℤ)) 1 = ⟨(a : ℤ) + (b : ℤ), 1⟩ := by
    simp [Q.norm]
  have hlo : int64Min ≤ (a : ℤ) + (b : ℤ) := by
    have h0 : (0:ℤ) ≤ (a : ℤ) + (b : ℤ) := by positivity
    have hneg : int64Min ≤ (0:ℤ) := by decide
    exact le_trans hneg h0
  simp [Scope.Int, eval, applyBin, promote2, Value.toComplexPair, Value.kind,
        mkNum, Q.add, Q.ofInt, hnorm, toIntV, Q.isInt, hlo, h]

/-- Witness for C1 at `a = 1`, `b = 2`. -/
theorem exact_int_sum_witness :
    (((1:ℕ) : ℤ) + ((2:ℕ) : ℤ) ≤ int64Max)
    ∧ (Scope.empty.Int (.bin .add (.lit (.vInt ((1:ℕ) : ℤ))) (.lit (.vInt ((2:ℕ) : ℤ))))
        = (((1:ℕ) : ℤ) + ((2:ℕ) : ℤ), none)
       ∧ Scope.empty.Int overflowExpr = (2, none)) :=
  ⟨by decide, exact_int_sum 1 2 (by decide)⟩

/-- C2: `&&` and `||` short-circuit as an evaluation-order guarantee: in any
scope where `undefinedVar` is unbound, `"false && undefinedVar"` evaluates
via `Scope.Bool` to `false` with no error (no `UnknownIdentifier` failure),
and `"true || X"` evaluates to `true` for every right operand `X`, even one
whose evaluation would fail. -/
theorem and_or_short_circuit (s : Scope)
    (h : s.objects.lookup "undefinedVar" = none) :
    s.Bool (.bin .land (.lit (.vBool false)) (.ident "undefinedVar")) = (false, none)
    ∧ ∀ X : Expr, eval s (.bin .lor (.lit (.vBool true)) X) = .ok (.vBool true) :=
  ⟨rfl, fun _ => rfl⟩

/-- Witness for C2 in the empty scope. -/
theorem and_or_short_circuit_witness :
    Scope.empty.objects.lookup "undefinedVar" = none
    ∧ (Scope.empty.Bool (.bin .land (.lit (.vBool false)) (.ident "undefinedVar"))
        = (false, none)
       ∧ ∀ X : Expr, eval Scope.empty (.bin .lor (.lit (.vBool true)) X)
          = .ok (.vBool true)) :=
  ⟨rfl, and_or_short_circuit Scope.empty rfl⟩

/-- C3: `Assign` is insert-once: if a name is already bound, a later
`Assign` of the same name leaves the existing binding untouched, and (when
the expression evaluates) reports no error; in particular after
`Assign("x","1")` then `Assign("x","2")`, evaluating `"x"` yields `1`. -/
theorem assign_insert_once (s : Scope) (name : String) (e : Expr) (v : Obj)
    (h : s.objects.lookup name = some v) :
    ((s.Assign name e).1.objects.lookup name = some v)
    ∧ (∀ w, eval s e = .ok w → (s.Assign name e).2 = none)
    ∧ doubleAssignScope.Int (.ident "x") = (1, none) := by
  refine ⟨?_, ?_, by decide⟩
  · cases he : eval s e with
    | error err => simp [Scope.Assign, he, h]
    | ok w => simp [Scope.Assign, he, insertObj, h]
  · intro w hw
    simp [Scope.Assign, hw]

/-- Witness for C3 on a scope binding `x = 5`. -/
theorem assign_insert_once_witness :
    boundScope.objects.lookup "x" = some (.const (.vInt 5))
    ∧ (((boundScope.Assign "x" (.lit (.vInt 7))).1.objects.lookup "x"
          = some (.const (.vInt 5)))
       ∧ (∀ w, eval boundScope (.lit (.vInt 7)) = .ok w →
            (boundScope.Assign "x" (.lit (.vInt 7))).2 = none)
       ∧ doubleAssignScope.Int (.ident "x") = (1, none)) :=
  ⟨rfl, assign_insert_once boundScope "x" (.lit (.vInt 7)) (.const (.vInt 5)) rfl⟩

/-- C4: `Int` narrowing never truncates: whenever the evaluated value is a
`Float` with a non-zero fractional part (denominator other than `1` in
lowest terms), `Scope.Int` returns the `NotRepresentable` error with the
zero sentinel, never a truncated integer; `Int("2.5*1")` fails while
`Float64("2.5*1")` returns exactly `2.5`, and `Int("2.5*24*60*60")` returns
exactly `216000` because the fractional parts cancel. -/
theorem int_narrowing_never_truncates (s : Scope) (e : Expr) (q : Q)
    (h : eval s e = .ok (.vFloat q)) (hq : q.den ≠ 1) :
    s.Int e = (0, some (.notRepresentable "int"))
    ∧ Scope.empty.Int exprTwoFiveTimesOne = (0, some (.notRepresentable "int"))
    ∧ Scope.empty.Float64 exprTwoFiveTimesOne = (.fin twoPointFive, none)
    ∧ Scope.empty.Int exprTwoFiveDay = (216000, none) := by
  refine ⟨?_, by decide, by decide, by decide⟩
  simp [Scope.Int, h, toIntV, Q.isInt, hq]

/-- Witness for C4 on the literal `0.5`. -/
theorem int_narrowing_never_truncates_witness :
    (eval Scope.empty (.lit (.vFloat ⟨1, 2⟩)) = .ok (.vFloat ⟨1, 2⟩)
     ∧ (⟨1, 2⟩ : Q).den ≠ 1)
    ∧ (Scope.empty.Int (.lit (.vFloat ⟨1, 2⟩)) = (0, some (.notRepresentable "int"))
       ∧ Scope.empty.Int exprTwoFiveTimesOne = (0, some (.notRepresentable "int"))
       ∧ Scope.empty.Float64 exprTwoFiveTimesOne = (.fin twoPointFive, none)
       ∧ Scope.empty.Int exprTwoFiveDay = (216000, none)) :=
  ⟨⟨rfl, by decide⟩,
   int_narrowing_never_truncates Scope.empty (.lit (.vFloat ⟨1, 2⟩)) ⟨1, 2⟩ rfl (by decide)⟩

/-- C5: namespaced lookup through an import is exact: with the library
`S=1, M=60*S, H=60*M, D=24*H` imported as `time`, evaluating
`"2*time.D + 4*time.H"` and narrowing to `Int` yields `187200`. -/
theorem import_namespaced_lookup : timeScope.Int timeExpr = (187200, none) := by
  decide

/-- C6: `Import(name, lib)` fails with `NamespaceError` — and adds no
binding — exactly when `name` follows the exported naming convention (first
character capitalized); a non-exported name always succeeds. -/
theorem import_fails_iff_exported (s : Scope) (name : String) (lib : Scope) :
    ((s.Import name lib).2 = some (.namespaceError name) ↔ isExportedName name = true)
    ∧ (isExportedName name = true → (s.Import name lib).1 = s)
    ∧ (isExportedName name = false → (s.Import name lib).2 = none) := by
  by_cases h : isExportedName name = true <;> simp [Scope.Import, h]

/-- Witness for C6: `Import("Time", lib)` errors while `Import("time", lib)`
succeeds. -/
theorem import_fails_iff_exported_witness :
    (Scope.empty.Import "Time" timeLib).2 = some (.namespaceError "Time")
    ∧ (Scope.empty.Import "time" timeLib).2 = none :=
  ⟨(import_fails_iff_exported Scope.empty "Time" timeLib).1.mpr (by decide),
   (import_fails_iff_exported Scope.empty "time" timeLib).2.2 (by decide)⟩

/-- C7: each package-level narrowing function equals the corresponding
method on the zero-valued (empty) `Scope`, for every expression. -/
theorem package_functions_use_empty_scope (e : Expr) :
    Calc.Int e = Scope.empty.Int e ∧ Calc.Uint e = Scope.empty.Uint e
    ∧ Calc.Float64 e = Scope.empty.Float64 e ∧ Calc.Float32 e = Scope.empty.Float32 e
    ∧ Calc.Complex128 e = Scope.empty.Complex128 e
    ∧ Calc.Complex64 e = Scope.empty.Complex64 e
    ∧ Calc.Bool e = Scope.empty.Bool e ∧ Calc.String e = Scope.empty.String e :=
  ⟨rfl, rfl, rfl, rfl, rfl, rfl, rfl, rfl⟩

/-- C8: `Bool` and `String` narrowing require the exact kind: `Scope.Bool`
succeeds with the boolean payload exactly when the evaluated value's kind is
`Bool` and otherwise fails with `NotRepresentable`; `Scope.String` likewise
for kind `String`.  No other kind is ever coerced. -/
theorem bool_string_require_exact_kind (s : Scope) (e : Expr) (v : Value)
    (h : eval s e = .ok v) :
    (∀ b, v = .vBool b → s.Bool e = (b, none))
    ∧ (v.kind ≠ .bool → s.Bool e = (false, some (.notRepresentable "bool")))
    ∧ (∀ str, v = .vString str → s.String e = (str, none))
    ∧ (v.kind ≠ .string → s.String e = ("", some (.notRepresentable "string"))) := by
  refine ⟨fun b hb => ?_, fun hk => ?_, fun str hs => ?_, fun hk => ?_⟩
  · subst hb; simp [Scope.Bool, h]
  · cases v <;> simp_all [Scope.Bool, Value.kind]
  · subst hs; simp [Scope.String, h]
  · cases v <;> simp_all [Scope.String, Value.kind]

/-- Witness for C8 on the literals `true` (for `Bool`) and the same value
rejected by `String`. -/
theorem bool_string_require_exact_kind_witness :
    eval Scope.empty (.lit (.vBool true)) = .ok (.vBool true)
    ∧ Scope.empty.Bool (.lit (.vBool true)) = (true, none)
    ∧ Scope.empty.String (.lit (.vBool true)) = ("", some (.notRepresentable "string")) :=
  ⟨rfl,
   (bool_string_require_exact_kind Scope.empty (.lit (.vBool true)) (.vBool true) rfl).1
     true rfl,
   (bool_string_require_exact_kind Scope.empty (.lit (.vBool true)) (.vBool true) rfl).2.2.2
     (by decide)⟩

/-- C9: `AssignValue` with a value outside the sixteen recognized native
kinds is fatal (a panic, modelled as `none`), and every recognized kind does
not panic. -/
theorem assignvalue_panics_iff_unsupported (s : Scope) (name : String) :
    s.AssignValue name .other = none
    ∧ ∀ v : NativeValue, v ≠ .other → (s.AssignValue name v).isSome = true := by
  refine ⟨rfl, fun v hv => ?_⟩
  cases v <;> simp [Scope.AssignValue] at hv ⊢

/-- Witness for C9 on `bool` input (recognized) and `other` (panic). -/
theorem assignvalue_panics_iff_unsupported_witness :
    Scope.empty.AssignValue "x" .other = none
    ∧ (Scope.empty.AssignValue "x" (.nBool true)).isSome = true :=
  ⟨(assignvalue_panics_iff_unsupported Scope.empty "x").1,
   (assignvalue_panics_iff_unsupported Scope.empty "x").2 (.nBool true) (by decide)⟩

/-- C10: on every failing call each narrowing method returns its fixed
sentinel value alongside the non-nil error: `Float64`/`Float32` return NaN,
`Int`/`Uint` return `0`, `Complex128`/`Complex64` return complex zero,
`Bool` returns `false`, `String` returns the empty string. -/
theorem failure_sentinel_values (s : Scope) (e : Expr) :
    ((s.Float64 e).2.isSome = true → (s.Float64 e).1 = .nan)
    ∧ ((s.Float32 e).2.isSome = true → (s.Float32 e).1 = .nan)
    ∧ ((s.Int e).2.isSome = true → (s.Int e).1 = 0)
    ∧ ((s.Uint e).2.isSome = true → (s.Uint e).1 = 0)
    ∧ ((s.Complex128 e).2.isSome = true →
        (s.Complex128 e).1 = (.fin (Q.ofInt 0), .fin (Q.ofInt 0)))
    ∧ ((s.Complex64 e).2.isSome = true →
        (s.Complex64 e).1 = (.fin (Q.ofInt 0), .fin (Q.ofInt 0)))
    ∧ ((s.Bool e).2.isSome = true → (s.Bool e).1 = false)
    ∧ ((s.String e).2.isSome = true → (s.String e).1 = "") := by
  refine ⟨?_, ?_, ?_, ?_, ?_, ?_, ?_, ?_⟩
  · cases h : eval s e with
    | error err => simp [Scope.Float64, h]
    | ok v =>
      cases h2 : toFloatV v with
      | none => simp [Scope.Float64, h, h2]
      | some q => simp [Scope.Float64, h, h2]
  · cases h : eval s e with
    | error err => simp [Scope.Float32, h]
    | ok v =>
      cases h2 : toFloatV v with
      | none => simp [Scope.Float32, h, h2]
      | some q => simp [Scope.Float32, h, h2]
  · cases h : eval s e with
    | error err => simp [Scope.Int, h]
    | ok v =>
      cases h2 : toIntV v with
      | none => simp [Scope.Int, h, h2]
      | some i =>
        simp only [Scope.Int, h, h2]
        split <;> simp
  · cases h : eval s e with
    | error err => simp [Scope.Uint, h]
    | ok v =>
      cases h2 : toIntV v with
      | none => simp [Scope.Uint, h, h2]
      | some i =>
        simp only [Scope.Uint, h, h2]
        split <;> simp
  · cases h : eval s e with
    | error err => simp [Scope.Complex128, h]
    | ok v =>
      cases h2 : toComplexV v with
      | none => simp [Scope.Complex128, h, h2]
      | some p => simp [Scope.Complex128, h, h2]
  · cases h : eval s e with
    | error err => simp [Scope.Complex64, h]
    | ok v =>
      cases h2 : toComplexV v with
      | none => simp [Scope.Complex64, h, h2]
      | some p => simp [Scope.Complex64, h, h2]
  · cases h : eval s e with
    | error err => simp [Scope.Bool, h]
    | ok v => cases v <;> simp [Scope.Bool, h]
  · cases h : eval s e with
    | error err => simp [Scope.String, h]
    | ok v => cases v <;> simp [Scope.String, h]

/-- Witness for C10 on the failing expression `zzz` (unknown identifier). -/
theorem failure_sentinel_values_witness :
    (Scope.empty.Float64 (.ident "zzz")).1 = .nan
    ∧ (Scope.empty.Float32 (.ident "zzz")).1 = .nan
    ∧ (Scope.empty.Int (.ident "zzz")).1 = 0
    ∧ (Scope.empty.Uint (.ident "zzz")).1 = 0
    ∧ (Scope.empty.Complex128 (.ident "zzz")).1 = (.fin (Q.ofInt 0), .fin (Q.ofInt 0))
    ∧ (Scope.empty.Complex64 (.ident "zzz")).1 = (.fin (Q.ofInt 0), .fin (Q.ofInt 0))
    ∧ (Scope.empty.Bool (.ident "zzz")).1 = false
    ∧ (Scope.empty.String (.ident "zzz")).1 = "" := by
  have h := failure_sentinel_values Scope.empty (.ident "zzz")
  exact ⟨h.1 rfl, h.2.1 rfl, h.2.2.1 rfl, h.2.2.2.1 rfl, h.2.2.2.2.1 rfl,
         h.2.2.2.2.2.1 rfl, h.2.2.2.2.2.2.1 rfl, h.2.2.2.2.2.2.2 rfl⟩

end CalcSpec
